import Mathlib

/-!
Shallow embedding of `src/app.py` (DeepSeek-Web-Writer): the progress store
(SQLite table `books` with operations `add_book_to_db`, `update_book_progress`,
`get_book_info`), the generation client (`call_deepseek_api`), and the
pipeline driver (`writing_process`).  The database is modelled as a map from
row id to row; the remote API is modelled by an environment assigning an
outcome (returned content or raised exception) to each call site.
-/

set_option maxHeartbeats 1000000
set_option linter.unusedVariables false

/-- One row of the `books` table: columns `id, title, total_chapters,
current_chapter, status, full_text` (schema in `setup_database`). -/
structure Book where
  id : Nat
  title : String
  total_chapters : Int
  current_chapter : Int
  status : String
  full_text : String
  deriving DecidableEq

/-- The SQLite store: rows keyed by integer primary key, plus the next
AUTOINCREMENT id (SQLite row ids start at 1). -/
structure DB where
  books : Nat → Option Book
  next_id : Nat

/-- Fresh database right after `setup_database`. -/
def DB.empty : DB := ⟨fun _ => none, 1⟩

/-- `add_book_to_db(title, total_chapters)`: INSERT a new row with status
`排队中...`; columns `current_chapter` and `full_text` take their schema
defaults 0 and the empty string.  Returns the updated store and the new id. -/
def add_book_to_db (db : DB) (title : String) (total_chapters : Int) : DB × Nat :=
  let book : Book :=
    { id := db.next_id, title := title, total_chapters := total_chapters,
      current_chapter := 0, status := "排队中...", full_text := "" }
  ({ books := fun n => if n = db.next_id then some book else db.books n,
     next_id := db.next_id + 1 }, db.next_id)

/-- Uncaught Python exceptions crossing a function boundary.  `typeError`
models `fetchone()` returning `None` and the caller subscripting it. -/
inductive PyErr where
  | typeError
  deriving DecidableEq

/-- `update_book_progress(book_id, current_chapter, status, new_content)`:
SELECTs `full_text`, computes
`current_text + new_content if current_text else new_content`
(Python truthiness: the empty string is falsy), and UPDATEs the row.
When no row matches, `cursor.fetchone()` returns `None` and `[0]` raises. -/
def update_book_progress (db : DB) (book_id : Nat) (current_chapter : Int)
    (status new_content : String) : Except PyErr DB :=
  match db.books book_id with
  | none => Except.error PyErr.typeError
  | some b =>
    let full_text := if b.full_text ≠ "" then b.full_text ++ new_content else new_content
    Except.ok
      { books := fun n =>
          if n = book_id then
            some { b with current_chapter := current_chapter, status := status,
                          full_text := full_text }
          else db.books n,
        next_id := db.next_id }

/-- `get_book_info(book_id)`: `SELECT * FROM books WHERE id = ?`, `fetchone`. -/
def get_book_info (db : DB) (book_id : Nat) : Option Book :=
  db.books book_id

/-- One role-tagged conversation turn, as in the `messages` list. -/
structure Message where
  role : String
  content : String
  deriving DecidableEq

/-- Outcome of one remote chat-completion call: the request raised an
exception, or returned with `response.choices[0].message.content`
(which the SDK types as an optional string). -/
inductive ApiOutcome where
  | exn
  | ok (content : Option String)
  deriving DecidableEq

/-- `call_deepseek_api(api_key, model, messages)`: the whole body is wrapped
in `try/except Exception`, so a raised exception becomes the return value
`None`; otherwise the returned content is passed through. -/
def call_deepseek_api (api_key model : String) (messages : List Message)
    (outcome : ApiOutcome) : Option String :=
  match outcome with
  | ApiOutcome.exn => none
  | ApiOutcome.ok content => content

/-- Stub environment for one run: the outcome of the i-th draft request of
each chapter, and of each chapter's selection request. -/
structure Env where
  draftResult : Nat → Nat → ApiOutcome
  selectResult : Nat → ApiOutcome

/-- Python truthiness of `draft` / `best_chapter`: `None` and `""` are falsy. -/
def pyFalsy : Option String → Bool
  | none => true
  | some s => s == ""

/-- The `prompt_draft` f-string of `writing_process`. -/
def prompt_draft (book_title : String) (chapter_num : Nat) (full_text : String) : String :=
  "你是一位富有想象力的小说家。请根据以下小说的已有内容，续写第 " ++ toString chapter_num
    ++ " 章。\n\n【书名】: " ++ book_title ++ "\n\n【已有内容】:\n" ++ full_text

/-- The `prompt_select` string of `writing_process`. -/
def prompt_select (book_title : String) (chapter_num : Nat)
    (full_text d1 d2 d3 : String) : String :=
  "你是一位资深编辑。请从以下为小说《" ++ book_title ++ "》的第 " ++ toString chapter_num
    ++ " 章写的三个草稿版本中，选择一个与上下文衔接最自然、情节最吸引人、文笔最好的版本。请不要添加任何评论或解释，直接输出你选择的那个版本的全文。\n\n"
    ++ "【上下文（之前的内容）】:\n" ++ full_text ++ "\n\n"
    ++ "--- 草稿版本 1 ---\n" ++ d1 ++ "\n\n"
    ++ "--- 草稿版本 2 ---\n" ++ d2 ++ "\n\n"
    ++ "--- 草稿版本 3 ---\n" ++ d3 ++ "\n---"

/-- The f-string `f"正在生成第 {chapter_num} 章..."`. -/
def genStatus (chapter_num : Nat) : String :=
  "正在生成第 " ++ toString chapter_num ++ " 章..."

/-- The f-string `new_content_for_db = f"\n\n---\n\n## 第 {chapter_num} 章\n\n{best_chapter}"`. -/
def new_content_for_db (chapter_num : Nat) (best_chapter : String) : String :=
  "\n\n---\n\n## 第 " ++ toString chapter_num ++ " 章\n\n" ++ best_chapter

/-- The draft loop `for i in range(3)` of `writing_process`: each truthy
result of `call_deepseek_api` is appended to `drafts`, in order. -/
def collectDrafts (env : Env) (api_key model book_title : String)
    (chapter_num : Nat) (full_text : String) : List String :=
  (List.range 3).filterMap fun i =>
    let draft := call_deepseek_api api_key model
      [⟨"user", prompt_draft book_title chapter_num full_text⟩]
      (env.draftResult chapter_num i)
    if pyFalsy draft then none else some (draft.getD "")

/-- Observable events of one driver run: each committed
`update_book_progress` write, and each prompt construction.  A prompt event
records the chapter, the prompt, the local `full_text` used as context, and
the `full_text` column stored for the book at that moment. -/
inductive RunEvent where
  | update (chapter : Nat) (status segment : String)
  | draftPrompt (chapter draft_index : Nat) (prompt context : String) (stored : Option String)
  | selectPrompt (chapter : Nat) (prompt context : String) (stored : Option String)
  deriving DecidableEq

/-- The `full_text` column currently stored for `book_id`. -/
def storedText (db : DB) (book_id : Nat) : Option String :=
  (db.books book_id).map Book.full_text

/-- The `for chapter_num in range(1, num_chapters + 1)` loop of
`writing_process`, one list element per remaining chapter.  Returns the final
store, the run's event trace, and the exception (if one escaped the thread).
`time.sleep` calls have no observable effect and are omitted. -/
def writingLoop (env : Env) (api_key model book_title : String)
    (num_chapters book_id : Nat) :
    List Nat → String → DB → DB × List RunEvent × Option PyErr
  | [], _, db => (db, [], none)
  | chapter_num :: rest, full_text, db =>
    match update_book_progress db book_id (chapter_num : Int) (genStatus chapter_num) "" with
    | Except.error e => (db, [], some e)
    | Except.ok db1 =>
      let ev1 := RunEvent.update chapter_num (genStatus chapter_num) ""
      let draftEvents := (List.range 3).map fun i =>
        RunEvent.draftPrompt chapter_num i (prompt_draft book_title chapter_num full_text)
          full_text (storedText db1 book_id)
      let drafts := collectDrafts env api_key model book_title chapter_num full_text
      if drafts.length < 3 then
        match update_book_progress db1 book_id (chapter_num : Int) "错误：生成草稿失败" "" with
        | Except.error e => (db1, [ev1] ++ draftEvents, some e)
        | Except.ok db2 =>
          (db2, [ev1] ++ draftEvents ++ [RunEvent.update chapter_num "错误：生成草稿失败" ""], none)
      else
        let ps := prompt_select book_title chapter_num full_text
          (drafts.getD 0 "") (drafts.getD 1 "") (drafts.getD 2 "")
        let selEvent := RunEvent.selectPrompt chapter_num ps full_text (storedText db1 book_id)
        let best_chapter := call_deepseek_api api_key model [⟨"user", ps⟩]
          (env.selectResult chapter_num)
        if pyFalsy best_chapter then
          match update_book_progress db1 book_id (chapter_num : Int) "错误：选择最佳版本失败" "" with
          | Except.error e => (db1, [ev1] ++ draftEvents ++ [selEvent], some e)
          | Except.ok db2 =>
            (db2, [ev1] ++ draftEvents
              ++ [selEvent, RunEvent.update chapter_num "错误：选择最佳版本失败" ""], none)
        else
          let seg := new_content_for_db chapter_num (best_chapter.getD "")
          let full_text2 := full_text ++ seg
          let status := if chapter_num < num_chapters then "写作中..." else "已完成"
          match update_book_progress db1 book_id (chapter_num : Int) status seg with
          | Except.error e => (db1, [ev1] ++ draftEvents ++ [selEvent], some e)
          | Except.ok db2 =>
            let r := writingLoop env api_key model book_title num_chapters book_id
              rest full_text2 db2
            (r.1, [ev1] ++ draftEvents
              ++ [selEvent, RunEvent.update chapter_num status seg] ++ r.2.1, r.2.2)

/-- `writing_process(api_key, model, book_title, num_chapters, book_id)`:
reads `full_text = book_info[5]` (subscripting raises when the book is
absent) and runs the chapter loop. -/
def writing_process (env : Env) (api_key model book_title : String)
    (num_chapters book_id : Nat) (db : DB) : DB × List RunEvent × Option PyErr :=
  match get_book_info db book_id with
  | none => (db, [], some PyErr.typeError)
  | some book_info =>
    writingLoop env api_key model book_title num_chapters book_id
      (List.range' 1 num_chapters) book_info.full_text db

/-- The committed `update_book_progress` writes of a trace, in order:
`(current_chapter, status, appended segment)`. -/
def updatesOf (trace : List RunEvent) : List (Nat × String × String) :=
  trace.filterMap fun e =>
    match e with
    | RunEvent.update k s seg => some (k, s, seg)
    | _ => none

/-- The two terminal failure statuses written by `writing_process` (the same
two strings the UI treats as terminal). -/
def isFailedStatus (s : String) : Prop :=
  s = "错误：生成草稿失败" ∨ s = "错误：选择最佳版本失败"

instance (s : String) : Decidable (isFailedStatus s) := by
  unfold isFailedStatus; infer_instance

/-- A prompt event whose recorded context equals the document stored for the
book at the moment the prompt was built; update events carry no prompt. -/
def promptContextOk : RunEvent → Prop
  | RunEvent.update _ _ _ => True
  | RunEvent.draftPrompt _ _ _ context stored => stored = some context
  | RunEvent.selectPrompt _ _ context stored => stored = some context

/-- The chapter text chosen for chapter `k` (the selection call's content,
with `None` read as the empty string). -/
def bestOf (env : Env) (k : Nat) : String :=
  (call_deepseek_api "" "" [] (env.selectResult k)).getD ""

/-- The document produced by an all-successful run over the given chapters:
one labeled unit segment per chapter, in list order. -/
def docFrom (env : Env) : List Nat → String
  | [] => ""
  | k :: ks => new_content_for_db k (bestOf env k) ++ docFrom env ks

/-- Status written by the successful append of chapter `k`:
`'写作中...' if chapter_num < num_chapters else '已完成'`. -/
def stepStatus (num_chapters k : Nat) : String :=
  if k < num_chapters then "写作中..." else "已完成"

/-- The update-write sequence of an all-successful run over the given
chapters: a generating record then a content append, per chapter. -/
def successUpdates (env : Env) (num_chapters : Nat) : List Nat → List (Nat × String × String)
  | [] => []
  | k :: ks =>
    (k, genStatus k, "") ::
      (k, stepStatus num_chapters k, new_content_for_db k (bestOf env k)) ::
        successUpdates env num_chapters ks

/-- An update sequence in which any failed-status write is the last write and
appends nothing. -/
def goodUpdates : List (Nat × String × String) → Prop
  | [] => True
  | u :: rest => (isFailedStatus u.2.1 → rest = [] ∧ u.2.2 = "") ∧ goodUpdates rest

/-- No write in the sequence carries a failed status. -/
def noFailed (l : List (Nat × String × String)) : Prop :=
  ∀ u ∈ l, ¬ isFailedStatus u.2.1

/-- The i-th draft text of chapter `k` under `env`: the content of the i-th
candidate call, with `None` read as the empty string. -/
def draftOf (env : Env) (k i : Nat) : String :=
  (call_deepseek_api "" "" [] (env.draftResult k i)).getD ""

/-- The event trace of an all-successful run over the given chapters starting
from local context `ft`. -/
def successTrace (env : Env) (book_title : String) (num_chapters : Nat) :
    List Nat → String → List RunEvent
  | [], _ => []
  | k :: rest, ft =>
    [RunEvent.update k (genStatus k) ""]
      ++ ((List.range 3).map fun i =>
            RunEvent.draftPrompt k i (prompt_draft book_title k ft) ft (some ft))
      ++ [RunEvent.selectPrompt k
            (prompt_select book_title k ft (draftOf env k 0) (draftOf env k 1) (draftOf env k 2))
            ft (some ft),
          RunEvent.update k (stepStatus num_chapters k) (new_content_for_db k (bestOf env k))]
      ++ successTrace env book_title num_chapters rest (ft ++ new_content_for_db k (bestOf env k))

/-- Stub environment: every generation and arbitration call returns `稿`. -/
def envAllOk : Env :=
  ⟨fun _ _ => ApiOutcome.ok (some "稿"), fun _ => ApiOutcome.ok (some "稿")⟩

/-- Stub environment: the third candidate request of every chapter raises (so
only 2 of 3 drafts survive); arbitration would succeed. -/
def envDraftFail : Env :=
  ⟨fun _ i => if i = 2 then ApiOutcome.exn else ApiOutcome.ok (some "稿"),
   fun _ => ApiOutcome.ok (some "稿")⟩

/-- Stub environment: all candidate requests succeed, every arbitration call
raises. -/
def envSelectFail : Env :=
  ⟨fun _ _ => ApiOutcome.ok (some "稿"), fun _ => ApiOutcome.exn⟩

/-- A store holding exactly one fresh book titled `T` with target length 1. -/
def dbOneBook : DB := (add_book_to_db DB.empty "T" 1).1

/-- A store holding exactly one fresh book titled `T` with target length 2. -/
def dbTwoChapters : DB := (add_book_to_db DB.empty "T" 2).1

/-- Store with the row of `book_id` replaced (the effect of one UPDATE). -/
def dbSet (db : DB) (book_id : Nat) (b : Book) : DB :=
  ⟨fun n => if n = book_id then some b else db.books n, db.next_id⟩

/-! Basic lemmas about the store operations. -/

theorem update_book_progress_eq (db : DB) (book_id : Nat) (current_chapter : Int)
    (status new_content : String) (b : Book) (h : db.books book_id = some b) :
    update_book_progress db book_id current_chapter status new_content = Except.ok
      { books := fun n =>
          if n = book_id then
            some { b with current_chapter := current_chapter, status := status,
                          full_text := b.full_text ++ new_content }
          else db.books n,
        next_id := db.next_id } := by
  have hft : (if b.full_text ≠ "" then b.full_text ++ new_content else new_content) =
      b.full_text ++ new_content := by
    by_cases hb : b.full_text = ""
    · rw [if_neg (by simp [hb]), hb, String.empty_append]
    · rw [if_pos hb]
  simp only [update_book_progress, h, hft]

theorem update_book_progress_missing (db : DB) (book_id : Nat) (current_chapter : Int)
    (status new_content : String) (h : db.books book_id = none) :
    update_book_progress db book_id current_chapter status new_content =
      Except.error PyErr.typeError := by
  simp only [update_book_progress, h]

/-! Status strings written by the driver are pairwise distinguishable. -/

theorem genStatus_data_head (k : Nat) : (genStatus k).data.head? = some '正' := rfl

theorem genStatus_ne_completed (k : Nat) : genStatus k ≠ "已完成" := by
  intro h
  have h2 : (genStatus k).data.head? = some '已' := by rw [h]; decide
  rw [genStatus_data_head] at h2
  exact absurd (Option.some.inj h2) (by decide)

theorem genStatus_ne_failDraft (k : Nat) : genStatus k ≠ "错误：生成草稿失败" := by
  intro h
  have h2 : (genStatus k).data.head? = some '错' := by rw [h]; decide
  rw [genStatus_data_head] at h2
  exact absurd (Option.some.inj h2) (by decide)

theorem genStatus_ne_failSelect (k : Nat) : genStatus k ≠ "错误：选择最佳版本失败" := by
  intro h
  have h2 : (genStatus k).data.head? = some '错' := by rw [h]; decide
  rw [genStatus_data_head] at h2
  exact absurd (Option.some.inj h2) (by decide)

theorem genStatus_not_failed (k : Nat) : ¬ isFailedStatus (genStatus k) := by
  intro h
  cases h with
  | inl h => exact genStatus_ne_failDraft k h
  | inr h => exact genStatus_ne_failSelect k h

theorem stepStatus_not_failed (num_chapters k : Nat) : ¬ isFailedStatus (stepStatus num_chapters k) := by
  unfold stepStatus
  by_cases h : k < num_chapters
  · rw [if_pos h]; decide
  · rw [if_neg h]; decide

/-! Trace bookkeeping lemmas. -/

@[simp] theorem updatesOf_nil : updatesOf [] = [] := rfl

@[simp] theorem updatesOf_cons_update (k : Nat) (s seg : String) (t : List RunEvent) :
    updatesOf (RunEvent.update k s seg :: t) = (k, s, seg) :: updatesOf t := rfl

@[simp] theorem updatesOf_cons_draftPrompt (k i : Nat) (p c : String) (st : Option String)
    (t : List RunEvent) :
    updatesOf (RunEvent.draftPrompt k i p c st :: t) = updatesOf t := rfl

@[simp] theorem updatesOf_cons_selectPrompt (k : Nat) (p c : String) (st : Option String)
    (t : List RunEvent) :
    updatesOf (RunEvent.selectPrompt k p c st :: t) = updatesOf t := rfl

@[simp] theorem updatesOf_append (a b : List RunEvent) :
    updatesOf (a ++ b) = updatesOf a ++ updatesOf b :=
  List.filterMap_append a b _

@[simp] theorem updatesOf_draftEvents (k : Nat) (p c : String) (st : Option String)
    (f : Nat → RunEvent) (l : List Nat)
    (hf : ∀ i, f i = RunEvent.draftPrompt k i p c st) :
    updatesOf (l.map f) = [] := by
  induction l with
  | nil => rfl
  | cons x xs ih => simp only [List.map_cons, hf, updatesOf_cons_draftPrompt, ih]

theorem call_deepseek_api_messages_irrel (api_key model : String) (messages : List Message)
    (o : ApiOutcome) :
    call_deepseek_api api_key model messages o = call_deepseek_api "" "" [] o := by
  cases o <;> rfl

/-- C4: for every existing project, `update_book_progress(book_id, unit_index,
status, text_segment)` succeeds and the stored row afterwards has
`current_chapter = unit_index`, `status = status`, and `full_text` equal to the
previous `full_text` concatenated with the segment; an empty segment leaves the
document exactly unchanged (status-only update). -/
theorem C4_append_and_advance (db : DB) (book_id : Nat) (unit_index : Int)
    (status text_segment : String) (b : Book)
    (h : get_book_info db book_id = some b) :
    ∃ db', update_book_progress db book_id unit_index status text_segment = Except.ok db' ∧
      get_book_info db' book_id =
        some { b with current_chapter := unit_index, status := status,
                      full_text := b.full_text ++ text_segment } ∧
      (text_segment = "" →
        get_book_info db' book_id =
          some { b with current_chapter := unit_index, status := status }) := by
  refine ⟨_, update_book_progress_eq db book_id unit_index status text_segment b h, ?_, ?_⟩
  · simp [get_book_info]
  · intro hseg
    simp [get_book_info, hseg, String.append_empty]

/-- C4 witness: a concrete store with one row, updated with a nonempty and
then an empty segment result shape. -/
theorem C4_append_and_advance_witness :
    ∃ db', update_book_progress (add_book_to_db DB.empty "T" 3).1 1 2 "写作中..." "seg" =
        Except.ok db' ∧
      get_book_info db' 1 =
        some { id := 1, title := "T", total_chapters := 3, current_chapter := 2,
               status := "写作中...", full_text := "" ++ "seg" } ∧
      ("seg" = "" →
        get_book_info db' 1 =
          some { id := 1, title := "T", total_chapters := 3, current_chapter := 2,
                 status := "写作中...", full_text := "" }) :=
  C4_append_and_advance (add_book_to_db DB.empty "T" 3).1 1 2 "写作中..." "seg"
    { id := 1, title := "T", total_chapters := 3, current_chapter := 0,
      status := "排队中...", full_text := "" } rfl

/-- C5 as stated is false: `add_book_to_db` performs no input validation, so
with an empty title and `total_chapters = 0` it still allocates a new row in
the queued state instead of failing with `InvalidInput`. -/
theorem C5_counterexample :
    get_book_info (add_book_to_db DB.empty "" 0).1 (add_book_to_db DB.empty "" 0).2 =
      some { id := 1, title := "", total_chapters := 0, current_chapter := 0,
             status := "排队中...", full_text := "" } := rfl

/-- C5 amended: for every input, valid or not, `add_book_to_db` allocates a
new Project in the queued state `排队中...` with position 0 and empty
document; no input validation happens in this function. -/
theorem C5_amended (db : DB) (title : String) (total_chapters : Int) :
    get_book_info (add_book_to_db db title total_chapters).1
        (add_book_to_db db title total_chapters).2 =
      some { id := db.next_id, title := title, total_chapters := total_chapters,
             current_chapter := 0, status := "排队中...", full_text := "" } := by
  simp [add_book_to_db, get_book_info]

/-- C6 as stated is false: on a missing project id, `update_book_progress`
does not return a `NotFound` error value — `cursor.fetchone()` yields `None`
and `[0]` raises a `TypeError` that propagates past the function boundary. -/
theorem C6_counterexample :
    update_book_progress DB.empty 1 1 "写作中..." "x" = Except.error PyErr.typeError := rfl

/-- C6 amended: for every missing project id, `update_book_progress` raises an
uncaught `TypeError` past its boundary (no `NotFound` value is produced); no
UPDATE is executed, so the store is unchanged. -/
theorem C6_amended (db : DB) (book_id : Nat) (current_chapter : Int)
    (status new_content : String) (h : get_book_info db book_id = none) :
    update_book_progress db book_id current_chapter status new_content =
      Except.error PyErr.typeError :=
  update_book_progress_missing db book_id current_chapter status new_content h

/-- C6 amended witness: the missing id 7 on a store holding only book 1. -/
theorem C6_amended_witness :
    update_book_progress (add_book_to_db DB.empty "T" 3).1 7 1 "写作中..." "x" =
      Except.error PyErr.typeError :=
  C6_amended (add_book_to_db DB.empty "T" 3).1 7 1 "写作中..." "x" rfl

/-- C7: `call_deepseek_api` never raises past its boundary: a raised transport
or service exception becomes the returned failure value `None`, an empty
(`None`) response content is returned as `None`, and a successful response
content is returned as the generated text. -/
theorem C7_failures_are_values (api_key model : String) (messages : List Message)
    (t : String) :
    call_deepseek_api api_key model messages ApiOutcome.exn = none ∧
    call_deepseek_api api_key model messages (ApiOutcome.ok none) = none ∧
    call_deepseek_api api_key model messages (ApiOutcome.ok (some t)) = some t :=
  ⟨rfl, rfl, rfl⟩

@[simp] theorem updatesOf_map_draftPrompt (k : Nat) (p c : String) (st : Option String)
    (l : List Nat) :
    updatesOf (l.map fun i => RunEvent.draftPrompt k i p c st) = [] := by
  induction l with
  | nil => rfl
  | cons x xs ih => simp only [List.map_cons, updatesOf_cons_draftPrompt, ih]

/-- One chapter iteration in which fewer than 3 drafts survive: the book ends
with `current_chapter = k`, the draft-failure status, and an unchanged
document; exactly the generating write and the failure write are committed,
and the loop stops. -/
theorem writingLoop_draftFail (env : Env) (api_key model book_title : String)
    (num_chapters book_id k : Nat) (rest : List Nat) (full_text : String)
    (db : DB) (b : Book) (hb : db.books book_id = some b)
    (hd : (collectDrafts env api_key model book_title k full_text).length < 3) :
    (writingLoop env api_key model book_title num_chapters book_id
        (k :: rest) full_text db).1.books book_id =
      some { b with current_chapter := (k : Int), status := "错误：生成草稿失败" } ∧
    updatesOf (writingLoop env api_key model book_title num_chapters book_id
        (k :: rest) full_text db).2.1 =
      [(k, genStatus k, ""), (k, "错误：生成草稿失败", "")] ∧
    (writingLoop env api_key model book_title num_chapters book_id
        (k :: rest) full_text db).2.2 = none := by
  have h1 := update_book_progress_eq db book_id k (genStatus k) "" b hb
  rw [String.append_empty] at h1
  have hb1 : (DB.mk (fun n =>
      if n = book_id then
        some { b with current_chapter := (k : Int), status := genStatus k }
      else db.books n) db.next_id).books book_id =
      some { b with current_chapter := (k : Int), status := genStatus k } := by simp
  have h2 := update_book_progress_eq _ book_id k "错误：生成草稿失败" "" _ hb1
  rw [String.append_empty] at h2
  refine ⟨?_, ?_, ?_⟩ <;>
    simp [writingLoop, h1, if_pos hd, h2]

/-- One chapter iteration in which 3 drafts survive but the selection call is
falsy (`None` or empty): the book ends with `current_chapter = k`, the
selection-failure status, and an unchanged document; exactly the generating
write and the failure write are committed, and the loop stops. -/
theorem writingLoop_selectFail (env : Env) (api_key model book_title : String)
    (num_chapters book_id k : Nat) (rest : List Nat) (full_text : String)
    (db : DB) (b : Book) (hb : db.books book_id = some b)
    (hd : ¬ (collectDrafts env api_key model book_title k full_text).length < 3)
    (hsel : pyFalsy (call_deepseek_api "" "" [] (env.selectResult k)) = true) :
    (writingLoop env api_key model book_title num_chapters book_id
        (k :: rest) full_text db).1.books book_id =
      some { b with current_chapter := (k : Int), status := "错误：选择最佳版本失败" } ∧
    updatesOf (writingLoop env api_key model book_title num_chapters book_id
        (k :: rest) full_text db).2.1 =
      [(k, genStatus k, ""), (k, "错误：选择最佳版本失败", "")] ∧
    (writingLoop env api_key model book_title num_chapters book_id
        (k :: rest) full_text db).2.2 = none := by
  have h1 := update_book_progress_eq db book_id k (genStatus k) "" b hb
  rw [String.append_empty] at h1
  have hb1 : (DB.mk (fun n =>
      if n = book_id then
        some { b with current_chapter := (k : Int), status := genStatus k }
      else db.books n) db.next_id).books book_id =
      some { b with current_chapter := (k : Int), status := genStatus k } := by simp
  have h2 := update_book_progress_eq _ book_id k "错误：选择最佳版本失败" "" _ hb1
  rw [String.append_empty] at h2
  have hsel2 : ∀ (a m : String) (msgs : List Message),
      pyFalsy (call_deepseek_api a m msgs (env.selectResult k)) = true := by
    intro a m msgs
    rw [call_deepseek_api_messages_irrel]
    exact hsel
  refine ⟨?_, ?_, ?_⟩ <;>
    simp [writingLoop, h1, if_neg hd, hsel2, h2]

/-- C2 as stated is false: with only 2 of 3 unit-1 candidates succeeding on a
fresh 1-chapter book, the driver does record the draft-failure status with an
empty document, but the stored position is 1, not 0 — the status-only update
`update_book_progress(book_id, chapter_num, ...)` already wrote the attempted
unit index. -/
theorem C2_counterexample :
    (writing_process envDraftFail "key" "deepseek-chat" "T" 1 1 dbOneBook).1.books 1 =
      some { id := 1, title := "T", total_chapters := 1, current_chapter := 1,
             status := "错误：生成草稿失败", full_text := "" } ∧
    Option.map Book.current_chapter
        ((writing_process envDraftFail "key" "deepseek-chat" "T" 1 1 dbOneBook).1.books 1) ≠
      some 0 := by
  constructor
  · decide
  · decide

/-- C2 amended: when fewer than 3 of the unit-1 candidate calls produce truthy
text on a freshly created project, the run records the generating status and
then the draft-failure status (both with empty segments, so the document stays
empty and no partial unit is appended) and terminates without exception — but
the stored position ends at 1, the attempted unit index, not 0. -/
theorem C2_amended (env : Env) (api_key model book_title title : String)
    (total : Int) (num_chapters : Nat) (db0 : DB)
    (hd : (collectDrafts env api_key model book_title 1 "").length < 3)
    (hnum : 1 ≤ num_chapters) :
    (writing_process env api_key model book_title num_chapters
        (add_book_to_db db0 title total).2 (add_book_to_db db0 title total).1).1.books
        (add_book_to_db db0 title total).2 =
      some { id := db0.next_id, title := title, total_chapters := total,
             current_chapter := 1, status := "错误：生成草稿失败", full_text := "" } ∧
    updatesOf (writing_process env api_key model book_title num_chapters
        (add_book_to_db db0 title total).2 (add_book_to_db db0 title total).1).2.1 =
      [(1, genStatus 1, ""), (1, "错误：生成草稿失败", "")] ∧
    (writing_process env api_key model book_title num_chapters
        (add_book_to_db db0 title total).2 (add_book_to_db db0 title total).1).2.2 = none := by
  obtain ⟨n, rfl⟩ : ∃ n, num_chapters = n + 1 := ⟨num_chapters - 1, by omega⟩
  have hfresh : (add_book_to_db db0 title total).1.books (add_book_to_db db0 title total).2 =
      some { id := db0.next_id, title := title, total_chapters := total,
             current_chapter := 0, status := "排队中...", full_text := "" } :=
    C5_amended db0 title total
  have hproc : writing_process env api_key model book_title (n + 1)
      (add_book_to_db db0 title total).2 (add_book_to_db db0 title total).1 =
      writingLoop env api_key model book_title (n + 1) (add_book_to_db db0 title total).2
        (1 :: List.range' 2 n) "" (add_book_to_db db0 title total).1 := by
    simp only [writing_process, get_book_info, hfresh, List.range'_succ]
  rw [hproc]
  exact writingLoop_draftFail env api_key model book_title (n + 1)
    (add_book_to_db db0 title total).2 1 (List.range' 2 n) "" (add_book_to_db db0 title total).1
    _ hfresh hd

/-- C2 amended witness: the 2-of-3 stub on a fresh 1-chapter book. -/
theorem C2_amended_witness :
    (writing_process envDraftFail "key" "deepseek-chat" "T" 1
        (add_book_to_db DB.empty "T" 1).2 (add_book_to_db DB.empty "T" 1).1).1.books
        (add_book_to_db DB.empty "T" 1).2 =
      some { id := 1, title := "T", total_chapters := 1, current_chapter := 1,
             status := "错误：生成草稿失败", full_text := "" } ∧
    updatesOf (writing_process envDraftFail "key" "deepseek-chat" "T" 1
        (add_book_to_db DB.empty "T" 1).2 (add_book_to_db DB.empty "T" 1).1).2.1 =
      [(1, genStatus 1, ""), (1, "错误：生成草稿失败", "")] ∧
    (writing_process envDraftFail "key" "deepseek-chat" "T" 1
        (add_book_to_db DB.empty "T" 1).2 (add_book_to_db DB.empty "T" 1).1).2.2 = none :=
  C2_amended envDraftFail "key" "deepseek-chat" "T" "T" 1 1 DB.empty (by decide) (by decide)

/-- C3 as stated is false: with all 3 unit-1 candidates succeeding and the
arbitration call raising, on a fresh 1-chapter book the driver records the
selection-failure status with the document unchanged, but the stored position
is 1 (the attempted unit), not the pre-unit value 0. -/
theorem C3_counterexample :
    (writing_process envSelectFail "key" "deepseek-chat" "T" 1 1 dbOneBook).1.books 1 =
      some { id := 1, title := "T", total_chapters := 1, current_chapter := 1,
             status := "错误：选择最佳版本失败", full_text := "" } ∧
    Option.map Book.current_chapter
        ((writing_process envSelectFail "key" "deepseek-chat" "T" 1 1 dbOneBook).1.books 1) ≠
      some 0 := by
  constructor
  · decide
  · decide

/-- C3 amended: for every unit `k` at the head of the remaining chapters, if
all 3 candidate calls produce truthy drafts but the arbitration call fails or
returns empty text, the run records the generating status and then the
selection-failure status (both appending nothing, so the document is exactly
the one stored before unit `k`) and terminates without exception — with the
stored position ending at `k`, the attempted unit index, not `k - 1`. -/
theorem C3_amended (env : Env) (api_key model book_title : String)
    (num_chapters book_id k : Nat) (rest : List Nat) (full_text : String)
    (db : DB) (b : Book) (hb : get_book_info db book_id = some b)
    (hd : ¬ (collectDrafts env api_key model book_title k full_text).length < 3)
    (hsel : pyFalsy (call_deepseek_api "" "" [] (env.selectResult k)) = true) :
    get_book_info (writingLoop env api_key model book_title num_chapters book_id
        (k :: rest) full_text db).1 book_id =
      some { b with current_chapter := (k : Int), status := "错误：选择最佳版本失败" } ∧
    updatesOf (writingLoop env api_key model book_title num_chapters book_id
        (k :: rest) full_text db).2.1 =
      [(k, genStatus k, ""), (k, "错误：选择最佳版本失败", "")] ∧
    (writingLoop env api_key model book_title num_chapters book_id
        (k :: rest) full_text db).2.2 = none :=
  writingLoop_selectFail env api_key model book_title num_chapters book_id k rest
    full_text db b hb hd hsel

/-- C3 amended witness: the all-drafts-succeed, arbitration-raises stub on a
fresh 1-chapter book at unit 1. -/
theorem C3_amended_witness :
    get_book_info (writingLoop envSelectFail "key" "deepseek-chat" "T" 1 1
        [1] "" dbOneBook).1 1 =
      some { id := 1, title := "T", total_chapters := 1, current_chapter := 1,
             status := "错误：选择最佳版本失败", full_text := "" } ∧
    updatesOf (writingLoop envSelectFail "key" "deepseek-chat" "T" 1 1
        [1] "" dbOneBook).2.1 =
      [(1, genStatus 1, ""), (1, "错误：选择最佳版本失败", "")] ∧
    (writingLoop envSelectFail "key" "deepseek-chat" "T" 1 1 [1] "" dbOneBook).2.2 = none :=
  C3_amended envSelectFail "key" "deepseek-chat" "T" 1 1 1 [] "" dbOneBook
    { id := 1, title := "T", total_chapters := 1, current_chapter := 0,
      status := "排队中...", full_text := "" } rfl (by decide) (by decide)


/-- Row contents after a successful `update_book_progress` on an existing row. -/
theorem update_ok_books (db : DB) (book_id : Nat) (current_chapter : Int)
    (status new_content : String) (db' : DB) (b : Book)
    (hb : db.books book_id = some b)
    (h : update_book_progress db book_id current_chapter status new_content =
      Except.ok db') :
    db'.books book_id =
      some { b with current_chapter := current_chapter, status := status,
                    full_text := b.full_text ++ new_content } := by
  rw [update_book_progress_eq db book_id current_chapter status new_content b hb] at h
  obtain rfl := Except.ok.inj h
  simp

/-- A successful `update_book_progress` never loses the row. -/
theorem update_ok_books_isSome (db : DB) (book_id : Nat) (current_chapter : Int)
    (status new_content : String) (db' : DB) (b : Book)
    (hb : db.books book_id = some b)
    (h : update_book_progress db book_id current_chapter status new_content =
      Except.ok db') :
    ∃ b', db'.books book_id = some b' :=
  ⟨_, update_ok_books db book_id current_chapter status new_content db' b hb h⟩

/-- Loop invariant for the completion law: if every processed chapter index is
at most `num_chapters` and the stored row already satisfies
"`已完成` implies `current_chapter = total_chapters`" (with
`total_chapters = num_chapters`), then the row still satisfies it after the
loop: the completed status is only ever written together with
`current_chapter = num_chapters`. -/
theorem writingLoop_completed_inv (env : Env) (api_key model book_title : String)
    (num_chapters book_id : Nat) :
    ∀ (ks : List Nat) (ft : String) (db : DB),
      (∀ k ∈ ks, k ≤ num_chapters) →
      (∀ b, db.books book_id = some b →
        b.total_chapters = (num_chapters : Int) ∧
          (b.status = "已完成" → b.current_chapter = b.total_chapters)) →
      ∀ b, (writingLoop env api_key model book_title num_chapters book_id
          ks ft db).1.books book_id = some b →
        b.total_chapters = (num_chapters : Int) ∧
          (b.status = "已完成" → b.current_chapter = b.total_chapters) := by
  intro ks
  induction ks with
  | nil => intro ft db hks hP b hb; exact hP b hb
  | cons k rest ih =>
    intro ft db hks hP b hb
    cases h : db.books book_id with
    | none =>
      have h1 := update_book_progress_missing db book_id k (genStatus k) "" h
      simp only [writingLoop, h1] at hb
      exact hP b hb
    | some b0 =>
      have hP0 := hP b0 h
      have h1 := update_book_progress_eq db book_id k (genStatus k) "" b0 h
      rw [String.append_empty] at h1
      have hb1 : (DB.mk (fun n =>
          if n = book_id then
            some { b0 with current_chapter := (k : Int), status := genStatus k }
          else db.books n) db.next_id).books book_id =
          some { b0 with current_chapter := (k : Int), status := genStatus k } := by simp
      simp only [writingLoop, h1] at hb
      split at hb
      · -- fewer than 3 drafts: failure write then stop
        split at hb
        · -- the failure write raised: final state is the generating write
          simp only [hb1] at hb
          obtain rfl := Option.some.inj hb
          exact ⟨hP0.1, fun hc => absurd hc (genStatus_ne_completed k)⟩
        · next db2 heq =>
            have hdb2 := update_ok_books _ book_id k "错误：生成草稿失败" "" db2 _ hb1 heq
            simp only [hdb2] at hb
            obtain rfl := Option.some.inj hb
            refine ⟨hP0.1, fun hc => ?_⟩
            have hc2 : "错误：生成草稿失败" = "已完成" := hc
            exact absurd hc2 (by decide)
      · split at hb
        · -- arbitration falsy: failure write then stop
          split at hb
          · simp only [hb1] at hb
            obtain rfl := Option.some.inj hb
            exact ⟨hP0.1, fun hc => absurd hc (genStatus_ne_completed k)⟩
          · next db2 heq =>
              have hdb2 := update_ok_books _ book_id k "错误：选择最佳版本失败" "" db2 _ hb1 heq
              simp only [hdb2] at hb
              obtain rfl := Option.some.inj hb
              refine ⟨hP0.1, fun hc => ?_⟩
              have hc2 : "错误：选择最佳版本失败" = "已完成" := hc
              exact absurd hc2 (by decide)
        · -- successful chapter: content write then recurse
          split at hb
          · simp only [hb1] at hb
            obtain rfl := Option.some.inj hb
            exact ⟨hP0.1, fun hc => absurd hc (genStatus_ne_completed k)⟩
          · next db2 heq =>
              have hdb2 := update_ok_books _ book_id k _ _ db2 _ hb1 heq
              refine ih _ _ (fun j hj => hks j (List.mem_cons_of_mem k hj)) ?_ b hb
              intro b' hb'
              rw [hdb2] at hb'
              obtain rfl := Option.some.inj hb'
              refine ⟨hP0.1, fun hc => ?_⟩
              have hc2 : (if k < num_chapters then "写作中..." else "已完成") = "已完成" := hc
              by_cases hk : k < num_chapters
              · rw [if_pos hk] at hc2
                exact absurd hc2 (by decide)
              · have hkn : k = num_chapters :=
                  Nat.le_antisymm (hks k (List.mem_cons_self k rest)) (Nat.le_of_not_lt hk)
                show (k : Int) = _
                rw [hkn, hP0.1]

/-- C1 as stated is false: a draft-generation failure at the final unit leaves
an observable state whose position equals its target length while the status
is the draft-failure string, not `已完成` — so `position = target_length` does
not imply the completed status. -/
theorem C1_counterexample :
    (writing_process envDraftFail "key" "deepseek-chat" "T" 1 1 dbOneBook).1.books 1 ≠ none ∧
    Option.map Book.current_chapter
        ((writing_process envDraftFail "key" "deepseek-chat" "T" 1 1 dbOneBook).1.books 1) =
      Option.map Book.total_chapters
        ((writing_process envDraftFail "key" "deepseek-chat" "T" 1 1 dbOneBook).1.books 1) ∧
    Option.map Book.status
        ((writing_process envDraftFail "key" "deepseek-chat" "T" 1 1 dbOneBook).1.books 1) ≠
      some "已完成" := by
  refine ⟨by decide, by decide, by decide⟩

/-- C1 amended: only the forward direction of the completion law holds.  For a
run of `writing_process` on a freshly created project whose `total_chapters`
agrees with the run's `num_chapters`, every row observable at the end having
status `已完成` also has `current_chapter = total_chapters`; the converse fails
(see the counterexample: generating/failed states can also carry
`position = target_length`). -/
theorem C1_amended (env : Env) (api_key model book_title title : String)
    (total : Int) (num_chapters : Nat) (db0 : DB)
    (htot : total = (num_chapters : Int)) :
    ∀ b, get_book_info (writing_process env api_key model book_title num_chapters
        (add_book_to_db db0 title total).2 (add_book_to_db db0 title total).1).1
        (add_book_to_db db0 title total).2 = some b →
      b.status = "已完成" → b.current_chapter = b.total_chapters := by
  intro b hb hc
  have hfresh : (add_book_to_db db0 title total).1.books (add_book_to_db db0 title total).2 =
      some { id := db0.next_id, title := title, total_chapters := total,
             current_chapter := 0, status := "排队中...", full_text := "" } :=
    C5_amended db0 title total
  simp only [writing_process, get_book_info, hfresh] at hb
  have hks : ∀ j ∈ List.range' 1 num_chapters, j ≤ num_chapters := by
    intro j hj
    rw [List.mem_range'] at hj
    obtain ⟨i, hi, rfl⟩ := hj
    omega
  have hP : ∀ b', (add_book_to_db db0 title total).1.books
        (add_book_to_db db0 title total).2 = some b' →
      b'.total_chapters = (num_chapters : Int) ∧
        (b'.status = "已完成" → b'.current_chapter = b'.total_chapters) := by
    intro b' hb'
    rw [hfresh] at hb'
    obtain rfl := Option.some.inj hb'
    refine ⟨htot, fun hcc => ?_⟩
    have hcc2 : "排队中..." = "已完成" := hcc
    exact absurd hcc2 (by decide)
  exact (writingLoop_completed_inv env api_key model book_title num_chapters
    (add_book_to_db db0 title total).2 (List.range' 1 num_chapters) "" _ hks hP b hb).2 hc

/-- C1 amended witness: the all-successful 1-chapter run ends completed with
position equal to target length. -/
theorem C1_amended_witness :
    Book.current_chapter
        { id := 1, title := "T", total_chapters := 1, current_chapter := 1,
          status := "已完成", full_text := "\n\n---\n\n## 第 1 章\n\n稿" } =
      Book.total_chapters
        { id := 1, title := "T", total_chapters := 1, current_chapter := 1,
          status := "已完成", full_text := "\n\n---\n\n## 第 1 章\n\n稿" } :=
  C1_amended envAllOk "key" "deepseek-chat" "T" "T" 1 1 DB.empty (by norm_num)
    { id := 1, title := "T", total_chapters := 1, current_chapter := 1,
      status := "已完成", full_text := "\n\n---\n\n## 第 1 章\n\n稿" }
    (by decide) rfl

theorem goodUpdates_decomp (l : List (Nat × String × String)) (h : goodUpdates l) :
    ∀ pre k s seg post, l = pre ++ (k, s, seg) :: post → isFailedStatus s →
      post = [] ∧ seg = "" := by
  induction l with
  | nil =>
    intro pre k s seg post hl
    cases pre <;> simp at hl
  | cons u rest ih =>
    intro pre k s seg post hl hf
    cases pre with
    | nil =>
      simp only [List.nil_append] at hl
      obtain ⟨rfl, rfl⟩ := List.cons.inj hl
      exact h.1 hf
    | cons p pre2 =>
      simp only [List.cons_append] at hl
      obtain ⟨rfl, hl2⟩ := List.cons.inj hl
      exact ih h.2 pre2 k s seg post hl2 hf

/-- All update writes of one driver run satisfy `goodUpdates`: a failed-status
write can only be the last write, and it appends nothing. -/
theorem writingLoop_goodUpdates (env : Env) (api_key model book_title : String)
    (num_chapters book_id : Nat) :
    ∀ (ks : List Nat) (ft : String) (db : DB),
      goodUpdates (updatesOf (writingLoop env api_key model book_title num_chapters book_id
        ks ft db).2.1) := by
  intro ks
  induction ks with
  | nil => intro ft db; trivial
  | cons k rest ih =>
    intro ft db
    cases h : db.books book_id with
    | none =>
      have h1 := update_book_progress_missing db book_id k (genStatus k) "" h
      simp only [writingLoop, h1]
      trivial
    | some b0 =>
      have h1 := update_book_progress_eq db book_id k (genStatus k) "" b0 h
      rw [String.append_empty] at h1
      simp only [writingLoop, h1]
      split
      · split
        · simp only [updatesOf_append, updatesOf_cons_update, updatesOf_map_draftPrompt,
            updatesOf_nil]
          exact ⟨fun hf => absurd hf (genStatus_not_failed k), trivial⟩
        · simp only [updatesOf_append, updatesOf_cons_update, updatesOf_map_draftPrompt,
            updatesOf_cons_draftPrompt, updatesOf_nil]
          exact ⟨fun hf => absurd hf (genStatus_not_failed k),
                 fun _ => ⟨rfl, rfl⟩, trivial⟩
      · split
        · split
          · simp only [updatesOf_append, updatesOf_cons_update, updatesOf_map_draftPrompt,
              updatesOf_cons_selectPrompt, updatesOf_nil]
            exact ⟨fun hf => absurd hf (genStatus_not_failed k), trivial⟩
          · simp only [updatesOf_append, updatesOf_cons_update, updatesOf_map_draftPrompt,
              updatesOf_cons_selectPrompt, updatesOf_nil]
            exact ⟨fun hf => absurd hf (genStatus_not_failed k),
                   fun _ => ⟨rfl, rfl⟩, trivial⟩
        · split
          · simp only [updatesOf_append, updatesOf_cons_update, updatesOf_map_draftPrompt,
              updatesOf_cons_selectPrompt, updatesOf_nil]
            exact ⟨fun hf => absurd hf (genStatus_not_failed k), trivial⟩
          · simp only [updatesOf_append, updatesOf_cons_update, updatesOf_map_draftPrompt,
              updatesOf_cons_selectPrompt, updatesOf_nil]
            exact ⟨fun hf => absurd hf (genStatus_not_failed k),
                   fun hf => absurd hf (stepStatus_not_failed num_chapters k), ih _ _⟩

/-- C8: once a run writes a failed status, it performs no further update for
that project: in the run's committed write sequence, any write carrying a
failed status is the final write, and it appends only the empty segment
(position, status and document are frozen afterwards). -/
theorem C8_failure_stops (env : Env) (api_key model book_title : String)
    (num_chapters book_id : Nat) (db : DB)
    (pre : List (Nat × String × String)) (k : Nat) (s seg : String)
    (post : List (Nat × String × String))
    (hdecomp : updatesOf (writing_process env api_key model book_title num_chapters
        book_id db).2.1 = pre ++ (k, s, seg) :: post)
    (hf : isFailedStatus s) :
    post = [] ∧ seg = "" := by
  cases hg : get_book_info db book_id with
  | none =>
    simp only [writing_process, hg] at hdecomp
    cases pre <;> simp at hdecomp
  | some bk =>
    simp only [writing_process, hg] at hdecomp
    exact goodUpdates_decomp _
      (writingLoop_goodUpdates env api_key model book_title num_chapters book_id
        (List.range' 1 num_chapters) bk.full_text db)
      pre k s seg post hdecomp hf

/-- C8 witness: the draft-failure run on a fresh 1-chapter book; its failure
write `(1, 错误：生成草稿失败, "")` is final and appends nothing. -/
theorem C8_failure_stops_witness :
    ([] : List (Nat × String × String)) = [] ∧ ("" : String) = "" :=
  C8_failure_stops envDraftFail "key" "deepseek-chat" "T" 1 1 dbOneBook
    [(1, genStatus 1, "")] 1 "错误：生成草稿失败" "" [] (by decide) (by decide)

/-- When all three candidate calls of chapter `k` return truthy text, the
draft list is exactly the three candidate texts in request order. -/
theorem collectDrafts_of_success (env : Env) (api_key model book_title : String)
    (k : Nat) (ft : String)
    (h : ∀ i, i < 3 → pyFalsy (call_deepseek_api "" "" [] (env.draftResult k i)) = false) :
    collectDrafts env api_key model book_title k ft =
      [draftOf env k 0, draftOf env k 1, draftOf env k 2] := by
  have h0 := h 0 (by omega)
  have h1 := h 1 (by omega)
  have h2 := h 2 (by omega)
  have hr : List.range 3 = [0, 1, 2] := rfl
  simp only [collectDrafts, hr, List.filterMap_cons, List.filterMap_nil,
    call_deepseek_api_messages_irrel, h0, h1, h2, draftOf]
  simp

@[simp] theorem dbSet_books_self (db : DB) (i : Nat) (b : Book) :
    (dbSet db i b).books i = some b := by
  simp [dbSet]

@[simp] theorem dbSet_next_id (db : DB) (i : Nat) (b : Book) :
    (dbSet db i b).next_id = db.next_id := rfl

@[simp] theorem dbSet_dbSet (db : DB) (i : Nat) (a b : Book) :
    dbSet (dbSet db i a) i b = dbSet db i b := by
  unfold dbSet
  congr 1
  funext n
  by_cases h : n = i <;> simp [h]

theorem update_eq_dbSet (db : DB) (book_id : Nat) (current_chapter : Int)
    (status new_content : String) (b : Book) (hb : db.books book_id = some b) :
    update_book_progress db book_id current_chapter status new_content =
      Except.ok (dbSet db book_id
        { b with current_chapter := current_chapter, status := status,
                 full_text := b.full_text ++ new_content }) :=
  update_book_progress_eq db book_id current_chapter status new_content b hb

/-- Characterization of an all-successful run segment: starting at chapter
`start` for `cnt ≥ 1` chapters on a book whose stored document equals the
local context, the loop commits every chapter in order; the final row carries
the last chapter index, the `写作中.../已完成` status of that index, and the
document extended by one labeled unit per chapter; the trace is the canonical
success trace and no exception escapes. -/
theorem writingLoop_all_success (env : Env) (api_key model book_title : String)
    (num_chapters book_id : Nat) :
    ∀ (cnt start : Nat) (ft : String) (db : DB) (b : Book),
      db.books book_id = some b → b.full_text = ft → 1 ≤ cnt →
      (∀ k, start ≤ k → k < start + cnt →
        (∀ i, i < 3 → pyFalsy (call_deepseek_api "" "" [] (env.draftResult k i)) = false) ∧
          pyFalsy (call_deepseek_api "" "" [] (env.selectResult k)) = false) →
      writingLoop env api_key model book_title num_chapters book_id
          (List.range' start cnt) ft db =
        (dbSet db book_id
          { b with current_chapter := ((start + cnt - 1 : Nat) : Int),
                   status := stepStatus num_chapters (start + cnt - 1),
                   full_text := ft ++ docFrom env (List.range' start cnt) },
         successTrace env book_title num_chapters (List.range' start cnt) ft, none) := by
  intro cnt
  induction cnt with
  | zero =>
    intro start ft db b hb hft hcnt hs
    exact absurd hcnt (by omega)
  | succ n ih =>
    intro start ft db b hb hft hcnt hs
    subst hft
    rw [List.range'_succ]
    have h1 := update_eq_dbSet db book_id start (genStatus start) "" b hb
    rw [String.append_empty] at h1
    have hb1 : (dbSet db book_id
        { b with current_chapter := (start : Int), status := genStatus start }).books book_id =
        some { b with current_chapter := (start : Int), status := genStatus start } :=
      dbSet_books_self db book_id _
    have hdr := (hs start (Nat.le_refl start) (by omega)).1
    have hsel := (hs start (Nat.le_refl start) (by omega)).2
    have hcd := collectDrafts_of_success env api_key model book_title start b.full_text hdr
    have hlen : ¬ (collectDrafts env api_key model book_title start b.full_text).length < 3 := by
      rw [hcd]; simp
    have hself : ∀ (a m : String) (msgs : List Message),
        pyFalsy (call_deepseek_api a m msgs (env.selectResult start)) = false := by
      intro a m msgs
      rw [call_deepseek_api_messages_irrel]
      exact hsel
    have h2 := update_eq_dbSet (dbSet db book_id
        { b with current_chapter := (start : Int), status := genStatus start }) book_id start
      (if start < num_chapters then "写作中..." else "已完成")
      (new_content_for_db start ((call_deepseek_api "" "" [] (env.selectResult start)).getD ""))
      _ hb1
    rw [dbSet_dbSet] at h2
    simp only [writingLoop, h1]
    rw [if_neg hlen]
    simp only [hself, Bool.false_eq_true, if_false, hcd, call_deepseek_api_messages_irrel,
      List.getD_cons_zero, List.getD_cons_succ, h2, storedText, dbSet_books_self,
      Option.map_some, successTrace, docFrom, stepStatus, bestOf, draftOf]
    cases n with
    | zero =>
      simp only [List.range'_zero, writingLoop, successTrace, docFrom, Prod.mk.injEq]
      refine ⟨?_, ?_, trivial⟩
      · have harith : start + 1 - 1 = start := by omega
        rw [harith]
        simp [String.append_empty]
      · simp
    | succ m =>
      have hb2 : (dbSet db book_id
          { b with current_chapter := (start : Int),
                   status := if start < num_chapters then "写作中..." else "已完成",
                   full_text := b.full_text ++ new_content_for_db start
                     ((call_deepseek_api "" "" [] (env.selectResult start)).getD "") }).books
          book_id = some
          { b with current_chapter := (start : Int),
                   status := if start < num_chapters then "写作中..." else "已完成",
                   full_text := b.full_text ++ new_content_for_db start
                     ((call_deepseek_api "" "" [] (env.selectResult start)).getD "") } :=
        dbSet_books_self db book_id _
      rw [ih (start + 1) _ _ _ hb2 rfl (by omega)
        (fun k hk1 hk2 => hs k (by omega) (by omega))]
      rw [dbSet_dbSet]
      have harith : start + 1 + (m + 1) - 1 = start + (m + 1 + 1) - 1 := by omega
      simp only [Prod.mk.injEq]
      refine ⟨?_, ?_, trivial⟩
      · simp only [harith, String.append_assoc, stepStatus]
      · simp

theorem updatesOf_successTrace (env : Env) (book_title : String) (num_chapters : Nat) :
    ∀ (ks : List Nat) (ft : String),
      updatesOf (successTrace env book_title num_chapters ks ft) =
        successUpdates env num_chapters ks := by
  intro ks
  induction ks with
  | nil => intro ft; rfl
  | cons k rest ih =>
    intro ft
    simp [successTrace, successUpdates, ih]

/-- C9: a run in which every candidate and arbitration call returns truthy
text, on a freshly created book, ends with status `已完成`, position
`num_chapters`, and a document that is exactly one labeled unit segment per
chapter in increasing order `1..num_chapters` (each heading followed by that
chapter's chosen text); the committed writes are, per chapter `k`, the
generating record and then the content append whose status is `写作中...` for
`k < num_chapters` and `已完成` for `k = num_chapters`. -/
theorem C9_full_success (env : Env) (api_key model book_title title : String)
    (total : Int) (num_chapters : Nat) (db0 : DB)
    (hnum : 1 ≤ num_chapters)
    (hs : ∀ k, 1 ≤ k → k ≤ num_chapters →
      (∀ i, i < 3 → pyFalsy (call_deepseek_api "" "" [] (env.draftResult k i)) = false) ∧
        pyFalsy (call_deepseek_api "" "" [] (env.selectResult k)) = false) :
    get_book_info (writing_process env api_key model book_title num_chapters
        (add_book_to_db db0 title total).2 (add_book_to_db db0 title total).1).1
        (add_book_to_db db0 title total).2 =
      some { id := db0.next_id, title := title, total_chapters := total,
             current_chapter := (num_chapters : Int), status := "已完成",
             full_text := docFrom env (List.range' 1 num_chapters) } ∧
    (writing_process env api_key model book_title num_chapters
        (add_book_to_db db0 title total).2 (add_book_to_db db0 title total).1).2.1 =
      successTrace env book_title num_chapters (List.range' 1 num_chapters) "" ∧
    updatesOf (writing_process env api_key model book_title num_chapters
        (add_book_to_db db0 title total).2 (add_book_to_db db0 title total).1).2.1 =
      successUpdates env num_chapters (List.range' 1 num_chapters) ∧
    (writing_process env api_key model book_title num_chapters
        (add_book_to_db db0 title total).2 (add_book_to_db db0 title total).1).2.2 = none := by
  have hfresh : (add_book_to_db db0 title total).1.books (add_book_to_db db0 title total).2 =
      some { id := db0.next_id, title := title, total_chapters := total,
             current_chapter := 0, status := "排队中...", full_text := "" } :=
    C5_amended db0 title total
  have hmain := writingLoop_all_success env api_key model book_title num_chapters
    (add_book_to_db db0 title total).2 num_chapters 1 "" (add_book_to_db db0 title total).1
    { id := db0.next_id, title := title, total_chapters := total,
      current_chapter := 0, status := "排队中...", full_text := "" }
    hfresh rfl hnum (fun k hk1 hk2 => hs k hk1 (by omega))
  have hidx : 1 + num_chapters - 1 = num_chapters := by omega
  rw [hidx] at hmain
  have hstep : stepStatus num_chapters num_chapters = "已完成" := by simp [stepStatus]
  rw [hstep] at hmain
  have hproc : writing_process env api_key model book_title num_chapters
      (add_book_to_db db0 title total).2 (add_book_to_db db0 title total).1 =
      writingLoop env api_key model book_title num_chapters
        (add_book_to_db db0 title total).2 (List.range' 1 num_chapters) ""
        (add_book_to_db db0 title total).1 := by
    simp only [writing_process, get_book_info, hfresh]
  rw [hproc, hmain]
  refine ⟨?_, rfl, ?_, rfl⟩
  · simp [get_book_info]
  · simp only [updatesOf_successTrace]

/-- C9 witness: the spec's full-run scenario with `target_length = 2` and the
deterministic stub text `稿` for every call. -/
theorem C9_full_success_witness :
    get_book_info (writing_process envAllOk "key" "deepseek-chat" "T" 2
        (add_book_to_db DB.empty "T" 2).2 (add_book_to_db DB.empty "T" 2).1).1
        (add_book_to_db DB.empty "T" 2).2 =
      some { id := 1, title := "T", total_chapters := 2, current_chapter := 2,
             status := "已完成", full_text := docFrom envAllOk (List.range' 1 2) } ∧
    (writing_process envAllOk "key" "deepseek-chat" "T" 2
        (add_book_to_db DB.empty "T" 2).2 (add_book_to_db DB.empty "T" 2).1).2.1 =
      successTrace envAllOk "T" 2 (List.range' 1 2) "" ∧
    updatesOf (writing_process envAllOk "key" "deepseek-chat" "T" 2
        (add_book_to_db DB.empty "T" 2).2 (add_book_to_db DB.empty "T" 2).1).2.1 =
      successUpdates envAllOk 2 (List.range' 1 2) ∧
    (writing_process envAllOk "key" "deepseek-chat" "T" 2
        (add_book_to_db DB.empty "T" 2).2 (add_book_to_db DB.empty "T" 2).1).2.2 = none :=
  C9_full_success envAllOk "key" "deepseek-chat" "T" "T" 2 2 DB.empty (by decide)
    (fun k hk1 hk2 => ⟨fun i hi => rfl, rfl⟩)

/-- Throughout the loop, every prompt is built from a local `full_text` that
equals the document stored for the book at that moment (single-writer run,
book present with stored document equal to the local context). -/
theorem writingLoop_promptContextOk (env : Env) (api_key model book_title : String)
    (num_chapters book_id : Nat) :
    ∀ (ks : List Nat) (ft : String) (db : DB) (b : Book),
      db.books book_id = some b → b.full_text = ft →
      ∀ e ∈ (writingLoop env api_key model book_title num_chapters book_id
          ks ft db).2.1, promptContextOk e := by
  intro ks
  induction ks with
  | nil => intro ft db b hb hft e he; simp [writingLoop] at he
  | cons k rest ih =>
    intro ft db b hb hft e he
    subst hft
    have h1 := update_eq_dbSet db book_id k (genStatus k) "" b hb
    rw [String.append_empty] at h1
    simp only [writingLoop, h1] at he
    split at he
    · split at he <;>
      next d heq =>
        simp only [List.mem_append, List.mem_cons, List.mem_map, List.mem_singleton,
          List.not_mem_nil, or_false] at he
        casesm* _ ∨ _, Exists _, _ ∧ _ <;>
          first
            | (subst e
               first
                 | trivial
                 | simp [promptContextOk, storedText])
            | exact ih _ _ _ (update_ok_books _ _ _ _ _ _ _
                (dbSet_books_self db book_id _) heq) rfl e (by assumption)
    · split at he
      · split at he <;>
        next d heq =>
          simp only [List.mem_append, List.mem_cons, List.mem_map, List.mem_singleton,
            List.not_mem_nil, or_false] at he
          casesm* _ ∨ _, Exists _, _ ∧ _ <;>
            first
              | (subst e
                 first
                   | trivial
                   | simp [promptContextOk, storedText])
              | exact ih _ _ _ (update_ok_books _ _ _ _ _ _ _
                  (dbSet_books_self db book_id _) heq) rfl e (by assumption)
      · split at he <;>
        next d heq =>
          simp only [List.mem_append, List.mem_cons, List.mem_map, List.mem_singleton,
            List.not_mem_nil, or_false] at he
          casesm* _ ∨ _, Exists _, _ ∧ _ <;>
            first
              | (subst e
                 first
                   | trivial
                   | simp [promptContextOk, storedText])
              | exact ih _ _ _ (update_ok_books _ _ _ _ _ _ _
                  (dbSet_books_self db book_id _) heq) rfl e (by assumption)

/-- C10: in a single run of `writing_process` on an existing project (single
writer), every draft prompt and every arbitration prompt is built with a local
`full_text` context equal to the `full_text` column stored for that project at
the moment the prompt is built. -/
theorem C10_prompt_context (env : Env) (api_key model book_title : String)
    (num_chapters book_id : Nat) (db : DB) (b : Book)
    (hb : get_book_info db book_id = some b) :
    ∀ e ∈ (writing_process env api_key model book_title num_chapters book_id db).2.1,
      promptContextOk e := by
  intro e he
  have hb2 : db.books book_id = some b := hb
  simp only [writing_process, get_book_info, hb2] at he
  exact writingLoop_promptContextOk env api_key model book_title num_chapters book_id
    (List.range' 1 num_chapters) b.full_text db b hb2 rfl e he

/-- C10 witness: in the all-successful run on a fresh book, the first draft
prompt was built with context equal to the stored (empty) document. -/
theorem C10_prompt_context_witness :
    promptContextOk (RunEvent.draftPrompt 1 0 (prompt_draft "T" 1 "") "" (some "")) :=
  C10_prompt_context envAllOk "key" "deepseek-chat" "T" 1 1 dbOneBook
    { id := 1, title := "T", total_chapters := 1, current_chapter := 0,
      status := "排队中...", full_text := "" } rfl
    (RunEvent.draftPrompt 1 0 (prompt_draft "T" 1 "") "" (some "")) (by decide)
